import Mathlib

/-!
# Verification of the node-llama-cpp multimodal addon lifecycle

Shallow embedding of the backend resource management in `src/llama/addon/addon.cpp`
and the vision-model lifecycle and pixel preprocessing in
`src/llama/addon/AddonVisionModel.cpp`, with theorems settling the spec claims.

The global backend state (`backendInitialized`, `backendDisposed`, the queued
`AddonBackendLoadWorker` / `AddonBackendUnloadWorker` instances) is modelled as an
explicit state machine; JS-thread calls (`addonInit`, `addonDispose`) and worker
executions (`Execute` bodies) are events.  Calls into `llama_backend_init` and
`llama_backend_free` are counted in the state.
-/

namespace NodeLlamaCpp

/-- The process-wide backend state of `addon.cpp`: the two globals
`backendInitialized` and `backendDisposed`, the number of queued but not yet
executed load/unload workers, and counters of the native calls performed. -/
structure BackendState where
  initialized : Bool
  disposed : Bool
  pendingLoad : Nat
  pendingUnload : Nat
  initCalls : Nat
  freeCalls : Nat
deriving Repr, DecidableEq

/-- Events of the backend lifecycle: a JS-thread `init()` call (`addonInit`), a
JS-thread `dispose()` call (`addonDispose`), the execution of a queued
`AddonBackendLoadWorker`, and the execution of a queued `AddonBackendUnloadWorker`. -/
inductive BackendEvent where
  | initCall
  | disposeCall
  | loadExec
  | unloadExec
deriving Repr, DecidableEq

/-- One step of the backend state machine, mirroring `addon.cpp`:
* `initCall` (`addonInit`): if `backendInitialized`, resolve immediately;
  otherwise queue a new `AddonBackendLoadWorker`.
* `disposeCall` (`addonDispose`): if `backendDisposed`, resolve immediately;
  otherwise set `backendDisposed = true` and queue a new `AddonBackendUnloadWorker`.
* `loadExec` (`AddonBackendLoadWorker::Execute`): call `llama_backend_init()`;
  then if `backendDisposed`, call `llama_backend_free()`,
  else set `backendInitialized = true`.
* `unloadExec` (`AddonBackendUnloadWorker::Execute`): if `backendInitialized`,
  set it to `false` and call `llama_backend_free()`. -/
def backendStep (s : BackendState) (e : BackendEvent) : BackendState :=
  match e with
  | .initCall =>
      if s.initialized then s
      else { s with pendingLoad := s.pendingLoad + 1 }
  | .disposeCall =>
      if s.disposed then s
      else { s with disposed := true, pendingUnload := s.pendingUnload + 1 }
  | .loadExec =>
      if s.pendingLoad = 0 then s
      else
        let s1 := { s with pendingLoad := s.pendingLoad - 1, initCalls := s.initCalls + 1 }
        if s1.disposed then { s1 with freeCalls := s1.freeCalls + 1 }
        else { s1 with initialized := true }
  | .unloadExec =>
      if s.pendingUnload = 0 then s
      else
        let s1 := { s with pendingUnload := s.pendingUnload - 1 }
        if s1.initialized then { s1 with initialized := false, freeCalls := s1.freeCalls + 1 }
        else s1

/-- The initial state: `backendInitialized = false`, `backendDisposed = false`,
no queued workers, no native calls performed. -/
def initialBackendState : BackendState :=
  { initialized := false, disposed := false, pendingLoad := 0, pendingUnload := 0,
    initCalls := 0, freeCalls := 0 }

/-- Run a sequence of backend events from the initial state. -/
def backendRun (es : List BackendEvent) : BackendState :=
  es.foldl backendStep initialBackendState

/-- Invariant of the backend state machine: while disposal has been requested and
the backend is still initialized, the (unique) unload worker is still pending, at
most one unload worker is ever queued, and an unload worker is only queued after
disposal was requested. -/
def BackendInv (s : BackendState) : Prop :=
  (s.disposed = true → s.initialized = true → 1 ≤ s.pendingUnload) ∧
  s.pendingUnload ≤ 1 ∧
  (1 ≤ s.pendingUnload → s.disposed = true)

/-! ### Vision model lifecycle (`AddonVisionModel.cpp`)

The fields of `AddonVisionModel` that the lifecycle operations touch:
`clip_context` (an opaque native pointer, modelled as `Option Nat` so distinct
handles can be told apart), `visionModelLoaded` and `disposed`.  Native
`clip_free` calls are reported as lists of freed handles.  The capability
fields (`visionCaps`) are pure metadata untouched by the claims and are not
modelled. -/

/-- The lifecycle-relevant state of an `AddonVisionModel` instance. -/
structure VisionState where
  clipContext : Option Nat
  visionModelLoaded : Bool
  disposed : Bool
deriving Repr, DecidableEq

/-- The state of a freshly constructed `AddonVisionModel`. -/
def freshVisionState : VisionState :=
  { clipContext := none, visionModelLoaded := false, disposed := false }

/-- `AddonVisionModel::dispose` (lines 47-59): if already disposed, return at
once; otherwise free `clip_context` when non-null, clear it, clear
`visionModelLoaded` and set `disposed`.  Returns the new state together with the
list of handles passed to `clip_free`. -/
def dispose (s : VisionState) : VisionState × List Nat :=
  if s.disposed then (s, [])
  else ({ clipContext := none, visionModelLoaded := false, disposed := true },
        s.clipContext.toList)

/-- `n` successive `dispose()` calls, accumulating all `clip_free` calls made. -/
def disposeN : Nat → VisionState → VisionState × List Nat
  | 0, s => (s, [])
  | n + 1, s =>
      let r := dispose s
      let r2 := disposeN n r.1
      (r2.1, r.2 ++ r2.2)

/-- The result of the external `clip_init` call: the vision context `ctx_v` and
the audio context `ctx_a`, each possibly null. -/
structure ClipInitResult where
  ctx_v : Option Nat
  ctx_a : Option Nat
deriving Repr, DecidableEq

/-- `AddonVisionModel::loadVisionModel` (lines 153-180): no-op success when
already loaded; otherwise call `clip_init` (whose outcome is the `res`
parameter).  If `res.ctx_v` is null, free `res.ctx_a` when non-null and fail;
on success free a distinct non-null `res.ctx_a`, store `ctx_v` and mark the
model loaded.  Returns (success flag, new state, handles passed to `clip_free`). -/
def loadVisionModel (s : VisionState) (res : ClipInitResult) :
    Bool × VisionState × List Nat :=
  if s.visionModelLoaded then (true, s, [])
  else
    match res.ctx_v with
    | none => (false, s, res.ctx_a.toList)
    | some v =>
        let freed := match res.ctx_a with
          | some a => if a ≠ v then [a] else []
          | none => []
        (true, { s with clipContext := some v, visionModelLoaded := true }, freed)

/-- `AddonVisionModel::Init` (lines 61-83): throws "Vision model is disposed"
when disposed, otherwise resolves the promise when `loadVisionModel` succeeds
and rejects with "Failed to load vision model" when it fails.  Returns
(promise outcome, new state, handles passed to `clip_free`). -/
def Init (s : VisionState) (res : ClipInitResult) :
    Except String Bool × VisionState × List Nat :=
  if s.disposed then (.error "Vision model is disposed", s, [])
  else
    let r := loadVisionModel s res
    if r.1 then (.ok true, r.2.1, r.2.2)
    else (.error "Failed to load vision model", r.2.1, r.2.2)

/-- One output pixel of the channel-conversion loop in
`AddonVisionModel::loadImageFromData` (lines 240-249): with
`srcIndex = i * channels`, red is `data[srcIndex]`, green is
`data[srcIndex + 1]` when `channels > 1` else red, and blue is
`data[srcIndex + 2]` when `channels > 2` else red. -/
def pixelTriple (data : List Nat) (channels i : Nat) : List Nat :=
  let srcIndex := i * channels
  let r := data.getD srcIndex 0
  let g := if 1 < channels then data.getD (srcIndex + 1) 0 else r
  let b := if 2 < channels then data.getD (srcIndex + 2) 0 else r
  [r, g, b]

/-- The pixel buffer handed to `clip_build_img_from_pixels` by
`AddonVisionModel::loadImageFromData` (lines 230-255): when `channels != 3`,
the interleaved 3-channel conversion of the input, otherwise the input buffer
unchanged. -/
def loadImageFromData (data : List Nat) (width height channels : Nat) : List Nat :=
  if channels ≠ 3 then (List.range (width * height)).flatMap (pixelTriple data channels)
  else data

/-- The preprocessing-and-encoding stage used by `processImageData` once the
image buffer is built: `clip_image_preprocess`, the batch-count check and
`clip_image_batch_encode`, taken as an opaque external oracle from the RGB
buffer and dimensions to an embedding or an error message. -/
structure ClipPipeline where
  run : List Nat → Nat → Nat → Except String (List ℚ)

/-- `AddonVisionModel::processImageData` (lines 182-227): throws
"Vision model not loaded" unless the model is loaded with a non-null context;
otherwise builds the image buffer via `loadImageFromData` and runs the
preprocessing/encoding pipeline.  The second component counts pipeline
invocations (native preprocessing/backend use). -/
def processImageData (s : VisionState) (p : ClipPipeline) (data : List Nat)
    (width height channels : Nat) : Except String (List ℚ) × Nat :=
  if !s.visionModelLoaded || s.clipContext.isNone then
    (.error "Vision model not loaded", 0)
  else
    match p.run (loadImageFromData data width height channels) width height with
    | .ok e => (.ok e, 1)
    | .error m => (.error m, 1)

/-- The catch-block of `AddonVisionModel::ProcessImage` (lines 126-129): any
exception from `processImageData` is rethrown with the
"Image processing failed: " prefix. -/
def wrapImageError (r : Except String (List ℚ) × Nat) : Except String (List ℚ) × Nat :=
  match r with
  | (.ok e, n) => (.ok e, n)
  | (.error m, n) => (.error ("Image processing failed: " ++ m), n)

/-- `AddonVisionModel::ProcessImage` (lines 90-130), for a well-typed call
(typed-array data and numeric width/height, so the argument checks pass):
throws "Vision model is disposed" when disposed, "Vision model not loaded" when
not loaded, and otherwise delegates to `processImageData` with the channel
count fixed to the literal `3` (line 118). -/
def ProcessImage (s : VisionState) (p : ClipPipeline) (data : List Nat)
    (width height : Nat) : Except String (List ℚ) × Nat :=
  if s.disposed then (.error "Vision model is disposed", 0)
  else if !s.visionModelLoaded then (.error "Vision model not loaded", 0)
  else wrapImageError (processImageData s p data width height 3)

/-! ### Module-level mock multimodal processing (`addon.cpp`, `LLAMA_MTMD_AVAILABLE` branch)

`addonProcessImage` / `addonProcessAudio` (lines 114-197) never call into the
backend: they fabricate a 512-element embedding from `std::hash` of the path
(the hash function is implementation-defined, so it is a parameter here), and
`addonProcessAudio` additionally returns a fixed-form transcript and the
constant confidence 0.85.  The float arithmetic is modelled over `ℚ`. -/

/-- The `embeddingSize` constant of `addonProcessImage`/`addonProcessAudio`. -/
def mtmdEmbeddingSize : Nat := 512

/-- `addonProcessImage` (lines 114-151, `LLAMA_MTMD_AVAILABLE` branch): the mock
embedding with `result[i] = ((pathHash + i) % 1000) / 1000.0`. -/
def addonProcessImage (hash : String → Nat) (imagePath : String) : List ℚ :=
  (List.range mtmdEmbeddingSize).map
    (fun i => (((hash imagePath + i) % 1000 : ℕ) : ℚ) / 1000)

/-- The object returned by `addonProcessAudio`. -/
structure AudioProcessResult where
  embedding : List ℚ
  transcript : String
  confidence : ℚ
deriving Repr, DecidableEq

/-- `addonProcessAudio` (lines 153-197, `LLAMA_MTMD_AVAILABLE` branch): the mock
embedding with `embedding[i] = ((pathHash + i * 2) % 1000) / 1000.0 * 0.1`, the
transcript "Mock transcript from: " followed by the path, and confidence 0.85. -/
def addonProcessAudio (hash : String → Nat) (audioPath : String) : AudioProcessResult :=
  { embedding := (List.range mtmdEmbeddingSize).map
      (fun i => ((((hash audioPath + i * 2) % 1000 : ℕ) : ℚ) / 1000) * (1 / 10)),
    transcript := "Mock transcript from: " ++ audioPath,
    confidence := 85 / 100 }

/-! ### Theorems -/

theorem backendStep_inv (s : BackendState) (e : BackendEvent) (h : BackendInv s) :
    BackendInv (backendStep s e) := by
  obtain ⟨h1, h2, h3⟩ := h
  cases e <;>
    simp only [backendStep, BackendInv] <;>
    split_ifs <;>
    simp_all

theorem foldl_backendStep_inv (es : List BackendEvent) :
    ∀ s : BackendState, BackendInv s → BackendInv (es.foldl backendStep s) := by
  induction es with
  | nil => exact fun s h => h
  | cons e es ih => exact fun s h => ih (backendStep s e) (backendStep_inv s e h)

theorem backendRun_inv (es : List BackendEvent) : BackendInv (backendRun es) :=
  foldl_backendStep_inv es initialBackendState (by constructor <;> simp [initialBackendState])

theorem foldl_initCall_state (n : Nat) :
    ∀ s : BackendState, s.initialized = false →
      List.foldl backendStep s (List.replicate n .initCall) =
        { s with pendingLoad := s.pendingLoad + n } := by
  induction n with
  | zero => intro s _; simp
  | succ n ih =>
      intro s hs
      rw [List.replicate_succ, List.foldl_cons]
      have hstep : backendStep s .initCall = { s with pendingLoad := s.pendingLoad + 1 } := by
        simp [backendStep, hs]
      rw [hstep, ih _ (by simp [hs])]
      simp [Nat.add_assoc, Nat.add_comm, Nat.add_left_comm]

theorem foldl_loadExec_initCalls (n : Nat) :
    ∀ s : BackendState, s.disposed = false → n ≤ s.pendingLoad →
      (List.foldl backendStep s (List.replicate n .loadExec)).initCalls = s.initCalls + n := by
  induction n with
  | zero => intro s _ _; simp
  | succ n ih =>
      intro s hd hn
      rw [List.replicate_succ, List.foldl_cons]
      have hp : ¬ s.pendingLoad = 0 := by omega
      have hstep : backendStep s .loadExec =
          { s with pendingLoad := s.pendingLoad - 1, initCalls := s.initCalls + 1,
                   initialized := true } := by
        simp [backendStep, hp, hd]
      rw [hstep, ih _ (by simp [hd]) (by simp; omega)]
      simp [Nat.add_assoc, Nat.add_comm, Nat.add_left_comm]

/-- C1 counterexample: two `init()` calls issued while no initialization has yet
completed each queue their own `AddonBackendLoadWorker` (the `backendInitialized`
guard in `addonInit` is still false), so after both workers execute,
`llama_backend_init` has been performed twice, not once. -/
theorem concurrent_init_two_backend_calls :
    (backendRun [.initCall, .initCall, .loadExec, .loadExec]).initCalls = 2 ∧
    (backendRun [.initCall, .initCall, .loadExec, .loadExec]).initCalls ≠ 1 := by
  decide

/-- C1 (amended): an `init()` call made after initialization completed performs no
backend call and changes nothing; an `init()` call made while `backendInitialized`
is still false always queues a fresh load worker, so `n` such concurrent calls
(followed by their worker executions) perform `n` `llama_backend_init` calls, not
one. -/
theorem init_call_no_single_flight :
    (∀ s : BackendState, s.initialized = true → backendStep s .initCall = s) ∧
    (∀ s : BackendState, s.initialized = false →
      backendStep s .initCall = { s with pendingLoad := s.pendingLoad + 1 }) ∧
    (∀ n : Nat,
      (backendRun (List.replicate n .initCall ++ List.replicate n .loadExec)).initCalls = n) := by
  refine ⟨fun s hs => by simp [backendStep, hs], fun s hs => by simp [backendStep, hs], fun n => ?_⟩
  unfold backendRun
  rw [List.foldl_append, foldl_initCall_state n initialBackendState rfl,
    foldl_loadExec_initCalls n _ (by simp [initialBackendState]) (by simp [initialBackendState])]
  simp [initialBackendState]

theorem init_call_no_single_flight_witness :
    backendStep ⟨true, false, 0, 0, 1, 0⟩ .initCall = ⟨true, false, 0, 0, 1, 0⟩ ∧
    backendStep ⟨false, false, 0, 0, 0, 0⟩ .initCall = ⟨false, false, 1, 0, 0, 0⟩ ∧
    (backendRun (List.replicate 2 .initCall ++ List.replicate 2 .loadExec)).initCalls = 2 :=
  ⟨init_call_no_single_flight.1 _ rfl,
   (init_call_no_single_flight.2.1 _ rfl).trans (by decide),
   init_call_no_single_flight.2.2 2⟩

/-- C6: when a queued `AddonBackendLoadWorker` executes, it always performs the
`llama_backend_init` call; if `backendDisposed` was already set it immediately
performs `llama_backend_free` again and leaves the `backendInitialized` flag
untouched (never sets it), otherwise it sets `backendInitialized = true`.
Consequently, in any reachable state in which disposal has been requested and no
unload worker is still pending, the backend is not initialized: it never remains
initialized after disposal. -/
theorem load_worker_honors_disposal :
    (∀ s : BackendState, 0 < s.pendingLoad →
      (s.disposed = true →
        backendStep s .loadExec =
          { s with pendingLoad := s.pendingLoad - 1, initCalls := s.initCalls + 1,
                   freeCalls := s.freeCalls + 1 }) ∧
      (s.disposed = false →
        backendStep s .loadExec =
          { s with pendingLoad := s.pendingLoad - 1, initCalls := s.initCalls + 1,
                   initialized := true })) ∧
    (∀ es : List BackendEvent, (backendRun es).disposed = true →
      (backendRun es).pendingUnload = 0 → (backendRun es).initialized = false) := by
  constructor
  · intro s hp
    have hp0 : ¬ s.pendingLoad = 0 := by omega
    exact ⟨fun hd => by simp [backendStep, hp0, hd], fun hd => by simp [backendStep, hp0, hd]⟩
  · intro es hd hu
    have hinv := (backendRun_inv es).1
    by_contra hinit
    have : 1 ≤ (backendRun es).pendingUnload :=
      hinv hd (by revert hinit; cases (backendRun es).initialized <;> simp)
    omega

theorem range_flatMap_length (f : Nat → List Nat) (hf : ∀ i, (f i).length = 3) (n : Nat) :
    ((List.range n).flatMap f).length = 3 * n := by
  rw [List.length_flatMap]
  induction n with
  | zero => simp
  | succ n ih => rw [List.range_succ]; simp_all; omega

theorem range_flatMap_getD (f : Nat → List Nat) (hf : ∀ i, (f i).length = 3) :
    ∀ n i j : Nat, i < n → j < 3 →
      ((List.range n).flatMap f).getD (3 * i + j) 0 = (f i).getD j 0 := by
  intro n
  induction n with
  | zero => intro i j hi _; omega
  | succ n ih =>
      intro i j hi hj
      rw [List.range_succ, List.flatMap_append]
      rcases Nat.lt_or_ge i n with hlt | hge
      · rw [List.getD_append]
        · exact ih i j hlt hj
        · rw [range_flatMap_length f hf]
          omega
      · have hin : i = n := by omega
        subst hin
        rw [List.getD_append_right]
        · rw [range_flatMap_length f hf]
          simp [Nat.add_sub_cancel_left]
        · rw [range_flatMap_length f hf]
          omega

theorem pixelTriple_length (data : List Nat) (channels i : Nat) :
    (pixelTriple data channels i).length = 3 := rfl

theorem loadImageFromData_getD (data : List Nat) (w h c i j : Nat) (hc : c ≠ 3)
    (hi : i < w * h) (hj : j < 3) :
    (loadImageFromData data w h c).getD (3 * i + j) 0 = (pixelTriple data c i).getD j 0 := by
  rw [loadImageFromData, if_pos hc]
  exact range_flatMap_getD (pixelTriple data c) (pixelTriple_length data c) (w * h) i j hi hj

/-- C2 counterexample: a single 2-channel pixel `[10, 20]` converts to
`[10, 20, 10]` — blue duplicates the FIRST channel (`channels > 2` is false, so
`b = r` in `loadImageFromData`) — not to `[10, 20, 20]` as the claim's
per-pixel rule `(c0, c1, c1)` demands. -/
theorem channels_two_blue_is_red :
    loadImageFromData [10, 20] 1 1 2 = [10, 20, 10] ∧
    loadImageFromData [10, 20] 1 1 2 ≠ [10, 20, 20] := by
  decide

/-- C2 (amended): for a well-formed 2-channel buffer, each output pixel is
`(c0, c1, c0)`: red from the first channel, green from the second, and blue a
duplicate of the first (red) channel. -/
theorem channels_two_rule (data : List Nat) (w h i : Nat)
    (hdata : data.length = w * h * 2) (hi : i < w * h) :
    (loadImageFromData data w h 2).getD (3 * i) 0 = data.getD (i * 2) 0 ∧
    (loadImageFromData data w h 2).getD (3 * i + 1) 0 = data.getD (i * 2 + 1) 0 ∧
    (loadImageFromData data w h 2).getD (3 * i + 2) 0 = data.getD (i * 2) 0 := by
  refine ⟨?_, ?_, ?_⟩
  · have := loadImageFromData_getD data w h 2 i 0 (by decide) hi (by decide)
    simpa [pixelTriple] using this
  · have := loadImageFromData_getD data w h 2 i 1 (by decide) hi (by decide)
    simpa [pixelTriple] using this
  · have := loadImageFromData_getD data w h 2 i 2 (by decide) hi (by decide)
    simpa [pixelTriple] using this

theorem channels_two_rule_witness :
    (loadImageFromData [10, 20] 1 1 2).getD 0 0 = 10 ∧
    (loadImageFromData [10, 20] 1 1 2).getD 1 0 = 20 ∧
    (loadImageFromData [10, 20] 1 1 2).getD 2 0 = 10 :=
  channels_two_rule [10, 20] 1 1 0 (by decide) (by decide)

/-- C7: for a positive-size image and channel count 1, 2 or 4, the conversion
yields an interleaved 3-channel buffer of length `3 * width * height`; channel
count 1 duplicates the single channel to R, G and B (in particular
`[200] ↦ [200, 200, 200]`), and channel count 4 keeps the first three channels
and drops the rest. -/
theorem channel_conversion_rules (data : List Nat) (w h c : Nat)
    (hw : 0 < w) (hh : 0 < h) (hc : c = 1 ∨ c = 2 ∨ c = 4)
    (hdata : data.length = w * h * c) :
    (loadImageFromData data w h c).length = 3 * (w * h) ∧
    (c = 1 → ∀ i, i < w * h →
      (loadImageFromData data w h c).getD (3 * i) 0 = data.getD i 0 ∧
      (loadImageFromData data w h c).getD (3 * i + 1) 0 = data.getD i 0 ∧
      (loadImageFromData data w h c).getD (3 * i + 2) 0 = data.getD i 0) ∧
    (c = 4 → ∀ i, i < w * h →
      (loadImageFromData data w h c).getD (3 * i) 0 = data.getD (i * 4) 0 ∧
      (loadImageFromData data w h c).getD (3 * i + 1) 0 = data.getD (i * 4 + 1) 0 ∧
      (loadImageFromData data w h c).getD (3 * i + 2) 0 = data.getD (i * 4 + 2) 0) ∧
    loadImageFromData [200] 1 1 1 = [200, 200, 200] := by
  have hc3 : c ≠ 3 := by omega
  refine ⟨?_, ?_, ?_, by decide⟩
  · rw [loadImageFromData, if_pos hc3]
    exact range_flatMap_length (pixelTriple data c) (pixelTriple_length data c) (w * h)
  · rintro rfl i hi
    refine ⟨?_, ?_, ?_⟩
    · have := loadImageFromData_getD data w h 1 i 0 (by decide) hi (by decide)
      simpa [pixelTriple] using this
    · have := loadImageFromData_getD data w h 1 i 1 (by decide) hi (by decide)
      simpa [pixelTriple] using this
    · have := loadImageFromData_getD data w h 1 i 2 (by decide) hi (by decide)
      simpa [pixelTriple] using this
  · rintro rfl i hi
    refine ⟨?_, ?_, ?_⟩
    · have := loadImageFromData_getD data w h 4 i 0 (by decide) hi (by decide)
      simpa [pixelTriple] using this
    · have := loadImageFromData_getD data w h 4 i 1 (by decide) hi (by decide)
      simpa [pixelTriple] using this
    · have := loadImageFromData_getD data w h 4 i 2 (by decide) hi (by decide)
      simpa [pixelTriple] using this

theorem channel_conversion_rules_witness :
    (loadImageFromData [200] 1 1 1).length = 3 * (1 * 1) ∧
    loadImageFromData [200] 1 1 1 = [200, 200, 200] :=
  ⟨(channel_conversion_rules [200] 1 1 1 (by decide) (by decide) (Or.inl rfl) (by decide)).1,
   (channel_conversion_rules [200] 1 1 1 (by decide) (by decide) (Or.inl rfl) (by decide)).2.2.2⟩

theorem load_worker_honors_disposal_witness :
    backendStep ⟨false, true, 1, 0, 0, 1⟩ .loadExec = ⟨false, true, 0, 0, 1, 2⟩ ∧
    backendStep ⟨false, false, 1, 0, 0, 0⟩ .loadExec = ⟨true, false, 0, 0, 1, 0⟩ ∧
    (backendRun [.initCall, .disposeCall, .loadExec, .unloadExec]).initialized = false :=
  ⟨((load_worker_honors_disposal.1 _ (by decide)).1 rfl).trans (by decide),
   ((load_worker_honors_disposal.1 _ (by decide)).2 rfl).trans (by decide),
   load_worker_honors_disposal.2 [.initCall, .disposeCall, .loadExec, .unloadExec]
     (by decide) (by decide)⟩

theorem dispose_disposed (s : VisionState) : (dispose s).1.disposed = true := by
  rw [dispose]
  split <;> simp_all

theorem disposeN_of_disposed (n : Nat) :
    ∀ s : VisionState, s.disposed = true → disposeN n s = (s, []) := by
  induction n with
  | zero => intro s _; rfl
  | succ n ih =>
      intro s hs
      have hd : dispose s = (s, []) := by rw [dispose, if_pos hs]
      simp only [disposeN, hd, ih s hs, List.append_nil]

/-- C3: after `dispose()` has completed (from any state), every well-typed
`processImage` call fails with the "Vision model is disposed" error without
invoking the preprocessing pipeline or the backend (invocation count 0), and
`init()` likewise fails with the same disposed error, leaving the state
untouched and freeing nothing.  Both operations are total Lean functions, so no
crash is possible. -/
theorem operations_after_dispose_fail (s : VisionState) (p : ClipPipeline)
    (data : List Nat) (w h : Nat) (res : ClipInitResult) :
    ProcessImage (dispose s).1 p data w h = (.error "Vision model is disposed", 0) ∧
    Init (dispose s).1 res = (.error "Vision model is disposed", (dispose s).1, []) := by
  have hd := dispose_disposed s
  constructor
  · rw [ProcessImage, if_pos hd]
  · rw [Init, if_pos hd]

/-- C4: `dispose()` is idempotent — for every handle satisfying the class
invariant (a disposed handle has no context and is not loaded) and every
`N ≥ 1`, `N` dispose calls produce exactly the state and the `clip_free` calls
of a single dispose; the terminal state is disposed, with the context cleared
and the loaded flag false; the native context is freed exactly once (once when
one was held, never otherwise); and a further `dispose()` is a no-op. -/
theorem dispose_idempotent (s : VisionState) (n : Nat) (hn : 1 ≤ n)
    (hs : s.disposed = true → s.clipContext = none ∧ s.visionModelLoaded = false) :
    disposeN n s = dispose s ∧
    (dispose s).1.disposed = true ∧
    (dispose s).1.clipContext = none ∧
    (dispose s).1.visionModelLoaded = false ∧
    (dispose s).2.length = (if s.disposed = false ∧ s.clipContext.isSome then 1 else 0) ∧
    dispose (dispose s).1 = ((dispose s).1, []) := by
  have hone : dispose (dispose s).1 = ((dispose s).1, []) := by
    rw [dispose, if_pos (dispose_disposed s)]
  refine ⟨?_, dispose_disposed s, ?_, ?_, ?_, hone⟩
  · obtain ⟨m, rfl⟩ : ∃ m, n = m + 1 := ⟨n - 1, by omega⟩
    simp only [disposeN, disposeN_of_disposed m _ (dispose_disposed s), List.append_nil]
  · rw [dispose]
    split
    · exact (hs (by assumption)).1
    · rfl
  · rw [dispose]
    split
    · exact (hs (by assumption)).2
    · rfl
  · rw [dispose]
    split
    · simp_all
    · cases hc : s.clipContext <;> simp_all [Option.toList]

theorem dispose_idempotent_witness :
    disposeN 3 ⟨some 7, true, false⟩ = dispose ⟨some 7, true, false⟩ ∧
    (dispose ⟨some 7, true, false⟩).1.disposed = true ∧
    (dispose ⟨some 7, true, false⟩).1.clipContext = none ∧
    (dispose ⟨some 7, true, false⟩).1.visionModelLoaded = false ∧
    (dispose ⟨some 7, true, false⟩).2.length =
      (if (⟨some 7, true, false⟩ : VisionState).disposed = false ∧
          (⟨some 7, true, false⟩ : VisionState).clipContext.isSome then 1 else 0) ∧
    dispose (dispose ⟨some 7, true, false⟩).1 = ((dispose ⟨some 7, true, false⟩).1, []) :=
  dispose_idempotent ⟨some 7, true, false⟩ 3 (by decide) (by decide)

/-- C5: when the backend's `clip_init` returns a null vision context, `load`
frees the partially created audio context (when one was returned), stores no
handle, leaves the state exactly as it was — in particular still not loaded —
and `init()` rejects with the "Failed to load vision model" backend error. -/
theorem load_failure_releases_and_stays_unloaded (s : VisionState) (res : ClipInitResult)
    (hd : s.disposed = false) (hl : s.visionModelLoaded = false)
    (hv : res.ctx_v = none) :
    loadVisionModel s res = (false, s, res.ctx_a.toList) ∧
    Init s res = (.error "Failed to load vision model", s, res.ctx_a.toList) := by
  have hload : loadVisionModel s res = (false, s, res.ctx_a.toList) := by
    rw [loadVisionModel, if_neg (by simp [hl]), hv]
  refine ⟨hload, ?_⟩
  rw [Init, if_neg (by simp [hd])]
  simp only [hload]
  simp

theorem load_failure_releases_and_stays_unloaded_witness :
    loadVisionModel freshVisionState ⟨none, some 5⟩ = (false, freshVisionState, [5]) ∧
    Init freshVisionState ⟨none, some 5⟩ =
      (.error "Failed to load vision model", freshVisionState, [5]) :=
  load_failure_releases_and_stays_unloaded freshVisionState ⟨none, some 5⟩ rfl rfl rfl

/-- C8: a handle that is neither disposed nor loaded fails every well-typed
`processImage` call with the "Vision model not loaded" error, and the
preprocessing pipeline / backend is never invoked (invocation count 0). -/
theorem processImage_not_loaded (s : VisionState) (p : ClipPipeline)
    (data : List Nat) (w h : Nat)
    (hd : s.disposed = false) (hl : s.visionModelLoaded = false) :
    ProcessImage s p data w h = (.error "Vision model not loaded", 0) := by
  rw [ProcessImage, if_neg (by simp [hd]), if_pos (by simp [hl])]

theorem processImage_not_loaded_witness :
    ProcessImage freshVisionState ⟨fun _ _ _ => .ok []⟩ [1, 2, 3] 1 1 =
      (.error "Vision model not loaded", 0) :=
  processImage_not_loaded freshVisionState ⟨fun _ _ _ => .ok []⟩ [1, 2, 3] 1 1 rfl rfl

/-- C9: on the path that reaches image processing, `ProcessImage` passes the
constant `3` as the channel count to `processImageData` (line 118), so the
channel-conversion branch of `loadImageFromData` is never taken from the public
interface: at channel count 3 the buffer is passed through unchanged. -/
theorem processImage_forces_three_channels :
    (∀ (s : VisionState) (p : ClipPipeline) (data : List Nat) (w h : Nat),
      s.disposed = false → s.visionModelLoaded = true →
      ProcessImage s p data w h = wrapImageError (processImageData s p data w h 3)) ∧
    (∀ (data : List Nat) (w h : Nat), loadImageFromData data w h 3 = data) := by
  constructor
  · intro s p data w h hd hl
    rw [ProcessImage, if_neg (by simp [hd]), if_neg (by simp [hl])]
  · intro data w h
    rw [loadImageFromData]
    simp

theorem processImage_forces_three_channels_witness :
    ProcessImage ⟨some 1, true, false⟩ ⟨fun _ _ _ => .ok []⟩ [9] 1 1 =
      wrapImageError (processImageData ⟨some 1, true, false⟩ ⟨fun _ _ _ => .ok []⟩ [9] 1 1 3) ∧
    loadImageFromData [7, 8, 9] 1 1 3 = [7, 8, 9] :=
  ⟨processImage_forces_three_channels.1 ⟨some 1, true, false⟩ ⟨fun _ _ _ => .ok []⟩ [9] 1 1 rfl rfl,
   processImage_forces_three_channels.2 [7, 8, 9] 1 1⟩

set_option maxRecDepth 4000

/-- C10: with multimodal support compiled in, the module-level `processAudio`
fabricates its result with no backend call: a 512-element embedding whose `i`-th
entry is `((hash path + i * 2) % 1000) / 1000 * 0.1`, hence every entry lies in
`[0, 0.1)`; the transcript is "Mock transcript from: " followed by the path, and
the confidence is the constant 0.85.  The module-level `processImage` likewise
returns a 512-element hash-derived embedding, and both results depend on the
path only through its hash, so the same path always yields the same result. -/
theorem mock_multimodal_processing (hash : String → Nat) (path : String) :
    (addonProcessAudio hash path).embedding.length = 512 ∧
    (∀ i, i < 512 → (addonProcessAudio hash path).embedding.getD i 0 =
      ((((hash path + i * 2) % 1000 : ℕ) : ℚ) / 1000) * (1 / 10)) ∧
    (∀ q ∈ (addonProcessAudio hash path).embedding, 0 ≤ q ∧ q < 1 / 10) ∧
    (addonProcessAudio hash path).transcript = "Mock transcript from: " ++ path ∧
    (addonProcessAudio hash path).confidence = 85 / 100 ∧
    (addonProcessImage hash path).length = 512 ∧
    (∀ i, i < 512 → (addonProcessImage hash path).getD i 0 =
      (((hash path + i) % 1000 : ℕ) : ℚ) / 1000) ∧
    (∀ p q : String, hash p = hash q →
      addonProcessImage hash p = addonProcessImage hash q ∧
      (addonProcessAudio hash p).embedding = (addonProcessAudio hash q).embedding) := by
  refine ⟨by simp [addonProcessAudio, mtmdEmbeddingSize], ?_, ?_, rfl, rfl,
    by simp [addonProcessImage, mtmdEmbeddingSize], ?_, ?_⟩
  · intro i hi
    rw [addonProcessAudio]
    rw [List.getD_eq_getElem _ _ (by simpa [mtmdEmbeddingSize] using hi)]
    simp
  · intro q hq
    rw [addonProcessAudio] at hq
    simp only [List.mem_map, List.mem_range] at hq
    obtain ⟨i, _, rfl⟩ := hq
    set k : ℕ := (hash path + i * 2) % 1000 with hk
    have hk1000 : k < 1000 := Nat.mod_lt _ (by norm_num)
    have hkq : (k : ℚ) < 1000 := by exact_mod_cast hk1000
    constructor
    · positivity
    · have h1 : ((k : ℚ) / 1000) * (1 / 10) = (k : ℚ) / 10000 := by ring
      rw [h1, div_lt_div_iff₀ (by norm_num) (by norm_num)]
      linarith
  · intro i hi
    rw [addonProcessImage]
    rw [List.getD_eq_getElem _ _ (by simpa [mtmdEmbeddingSize] using hi)]
    simp
  · intro p q hpq
    constructor
    · rw [addonProcessImage, addonProcessImage, hpq]
    · rw [addonProcessAudio, addonProcessAudio, hpq]

theorem mock_multimodal_processing_witness :
    (addonProcessAudio (fun _ => 0) "a").embedding.length = 512 ∧
    (addonProcessAudio (fun _ => 0) "a").embedding.getD 0 0 =
      ((((0 + 0 * 2) % 1000 : ℕ) : ℚ) / 1000) * (1 / 10) ∧
    (addonProcessAudio (fun _ => 0) "a").transcript = "Mock transcript from: " ++ "a" ∧
    (addonProcessAudio (fun _ => 0) "a").confidence = 85 / 100 ∧
    addonProcessImage (fun _ => 0) "a" = addonProcessImage (fun _ => 0) "b" :=
  ⟨(mock_multimodal_processing (fun _ => 0) "a").1,
   (mock_multimodal_processing (fun _ => 0) "a").2.1 0 (by norm_num),
   (mock_multimodal_processing (fun _ => 0) "a").2.2.2.1,
   (mock_multimodal_processing (fun _ => 0) "a").2.2.2.2.1,
   ((mock_multimodal_processing (fun _ => 0) "a").2.2.2.2.2.2.2 "a" "b" rfl).1⟩

end NodeLlamaCpp
